import Mathlib

/-!
Verification development for the Visor3dMci backend (three Express variants:
Supabase, filesystem, Firebase/filesystem).  The HTTP handlers of
`src/server.js` and the unnamed filesystem variant are shallowly embedded as
pure state-transition functions; persistent state (Supabase tables + storage
bucket, respectively the per-folder scene/model/quote files under `public/`)
is modelled as association lists.
-/

namespace Visor3dMci

/-! ## SHA-256 (model of Node `crypto.createHash("sha256").update(s).digest("hex")`)

Machine words are `Nat` reduced mod `2 ^ 32` explicitly. -/

def add32 (a b : Nat) : Nat := (a + b) % 4294967296

def rotr (n x : Nat) : Nat :=
  Nat.lor (Nat.shiftRight x n) (Nat.shiftLeft x (32 - n) % 4294967296)

def shr (n x : Nat) : Nat := Nat.shiftRight x n

def xor3 (a b c : Nat) : Nat := Nat.xor (Nat.xor a b) c

def smallSigma0 (x : Nat) : Nat := xor3 (rotr 7 x) (rotr 18 x) (shr 3 x)

def smallSigma1 (x : Nat) : Nat := xor3 (rotr 17 x) (rotr 19 x) (shr 10 x)

def bigSigma0 (x : Nat) : Nat := xor3 (rotr 2 x) (rotr 13 x) (rotr 22 x)

def bigSigma1 (x : Nat) : Nat := xor3 (rotr 6 x) (rotr 11 x) (rotr 25 x)

def chFun (x y z : Nat) : Nat :=
  Nat.xor (Nat.land x y) (Nat.land (Nat.xor x 4294967295) z)

def majFun (x y z : Nat) : Nat :=
  Nat.xor (Nat.xor (Nat.land x y) (Nat.land x z)) (Nat.land y z)

/-- The 64 round constants of FIPS 180-4, written in decimal. -/
def sha256K : List Nat :=
  [1116352408, 1899447441, 3049323471, 3921009573, 961987163, 1508970993,
   2453635748, 2870763221, 3624381080, 310598401, 607225278, 1426881987,
   1925078388, 2162078206, 2614888103, 3248222580, 3835390401, 4022224774,
   264347078, 604807628, 770255983, 1249150122, 1555081692, 1996064986,
   2554220882, 2821834349, 2952996808, 3210313671, 3336571891, 3584528711,
   113926993, 338241895, 666307205, 773529912, 1294757372, 1396182291,
   1695183700, 1986661051, 2177026350, 2456956037, 2730485921, 2820302411,
   3259730800, 3345764771, 3516065817, 3600352804, 4094571909, 275423344,
   430227734, 506948616, 659060556, 883997877, 958139571, 1322822218,
   1537002063, 1747873779, 1955562222, 2024104815, 2227730452, 2361852424,
   2428436474, 2756734187, 3204031479, 3329325298]

/-- The initial hash value of FIPS 180-4, written in decimal. -/
def sha256H0 : List Nat :=
  [1779033703, 3144134277, 1013904242, 2773480762,
   1359893119, 2600822924, 528734635, 1541459225]

/-- Message-schedule extension; the word list is kept most-recent-first. -/
def extendW : Nat → List Nat → List Nat
  | 0, wrev => wrev
  | k + 1, wrev =>
    let nw := add32 (add32 (smallSigma1 (wrev.getD 1 0)) (wrev.getD 6 0))
                    (add32 (smallSigma0 (wrev.getD 14 0)) (wrev.getD 15 0))
    extendW k (nw :: wrev)

def sha256Step (s : List Nat) (ki wi : Nat) : List Nat :=
  match s with
  | [a, b, c, d, e, f, g, h] =>
    let t1 := add32 h (add32 (bigSigma1 e) (add32 (chFun e f g) (add32 ki wi)))
    let t2 := add32 (bigSigma0 a) (majFun a b c)
    [add32 t1 t2, a, b, c, add32 d t1, e, f, g]
  | other => other

def sha256Compress (hs : List Nat) (block : List Nat) : List Nat :=
  let w := (extendW 48 block.reverse).reverse
  let final := (sha256K.zip w).foldl (fun s kw => sha256Step s kw.1 kw.2) hs
  match hs, final with
  | [a0, b0, c0, d0, e0, f0, g0, h0], [a, b, c, d, e, f, g, h] =>
    [add32 a0 a, add32 b0 b, add32 c0 c, add32 d0 d,
     add32 e0 e, add32 f0 f, add32 g0 g, add32 h0 h]
  | _, _ => hs

def sha256Blocks : List (List Nat) → List Nat → List Nat
  | [], hs => hs
  | b :: rest, hs => sha256Blocks rest (sha256Compress hs b)

/-- Big-endian 32-bit words from bytes. -/
def toWords : List Nat → List Nat
  | b0 :: b1 :: b2 :: b3 :: rest => (((b0 * 256 + b1) * 256 + b2) * 256 + b3) :: toWords rest
  | _ => []

/-- Split a padded byte list into 16-word blocks (fuel keeps recursion structural). -/
def toBlocksFuel : Nat → List Nat → List (List Nat)
  | 0, _ => []
  | _, [] => []
  | fuel + 1, l => toWords (l.take 64) :: toBlocksFuel fuel (l.drop 64)

def sha256Pad (msg : List Nat) : List Nat :=
  let len := msg.length
  let bitLen := 8 * len
  let zeros := List.replicate ((119 - len % 64) % 64) 0
  let lenBytes := (List.range 8).reverse.map (fun i => Nat.shiftRight bitLen (8 * i) % 256)
  msg ++ [128] ++ zeros ++ lenBytes

def hexDigit (n : Nat) : Char :=
  if n < 10 then Char.ofNat (48 + n) else Char.ofNat (87 + n)

def toHex8 (x : Nat) : List Char :=
  (List.range 8).reverse.map (fun i => hexDigit (Nat.shiftRight x (4 * i) % 16))

def sha256Hex (msg : List Nat) : String :=
  let padded := sha256Pad msg
  let blocks := toBlocksFuel (msg.length + 73) padded
  String.mk ((sha256Blocks blocks sha256H0).map toHex8).flatten

/-- UTF-8 bytes of a character (the default encoding of `hash.update`). -/
def utf8Bytes (c : Char) : List Nat :=
  let n := c.toNat
  if n < 128 then [n]
  else if n < 2048 then [192 + n / 64, 128 + n % 64]
  else if n < 65536 then [224 + n / 4096, 128 + n / 64 % 64, 128 + n % 64]
  else [240 + n / 262144, 128 + n / 4096 % 64, 128 + n / 64 % 64, 128 + n % 64]

def strUtf8 (s : String) : List Nat := (s.data.map utf8Bytes).flatten

/-- `hashPassword` from `src/server.js` line 47 and the filesystem variant. -/
def hashPassword (password : String) : String := sha256Hex (strUtf8 password)

/-! ## slugify (`src/server.js` lines 34-45, `src/unnamed/part_000` lines 12-23)

The JS pipeline is `normalize("NFD")` + removal of U+0300-U+036F, then
`toLowerCase`, then the three regex replacements and `substring(0, 40)`.
Unicode NFD and full-Unicode lowercasing are modelled for precomposed Latin
letters used in Spanish; every other character is untouched by the fold
(non-alphanumerics are replaced by hyphens regardless, so the claim-relevant
behaviour is exact for these inputs). -/

def stripDiacritic (c : Char) : Char :=
  match c with
  | 'á' => 'a' | 'é' => 'e' | 'í' => 'i' | 'ó' => 'o' | 'ú' => 'u'
  | 'ü' => 'u' | 'ñ' => 'n'
  | 'Á' => 'A' | 'É' => 'E' | 'Í' => 'I' | 'Ó' => 'O' | 'Ú' => 'U'
  | 'Ü' => 'U' | 'Ñ' => 'N'
  | other => other

def lowerChar (c : Char) : Char :=
  if 'A' ≤ c ∧ c ≤ 'Z' then Char.ofNat (c.toNat + 32) else c

def foldChar (c : Char) : Char := lowerChar (stripDiacritic c)

def isLowerAlnum (c : Char) : Bool :=
  ('a' ≤ c && c ≤ 'z') || ('0' ≤ c && c ≤ '9')

/-- Regex replacement of each maximal run of non-alphanumerics by one hyphen
(the Boolean records whether the previous character was inside such a run). -/
def dashRuns : Bool → List Char → List Char
  | _, [] => []
  | prevDash, c :: rest =>
    if isLowerAlnum c then c :: dashRuns false rest
    else if prevDash then dashRuns true rest
    else '-' :: dashRuns true rest

/-- Removal of leading hyphens (`^-+`). -/
def ltrimDash (l : List Char) : List Char := l.dropWhile (· == '-')

/-- Removal of trailing hyphens (`-+$`). -/
def rtrimDash : List Char → List Char
  | [] => []
  | c :: rest =>
    match rtrimDash rest with
    | [] => if c == '-' then [] else [c]
    | r => c :: r

def slugify (s : String) : String :=
  let base := if s == "" then "proyecto" else s
  let folded := base.data.map foldChar
  let replaced := dashRuns false folded
  let trimmed := rtrimDash (ltrimDash replaced)
  let cut := trimmed.take 40
  if cut.isEmpty then "proyecto" else String.mk cut

/-! ## JavaScript values

Request bodies arrive through `express.json()`, so scalar fields are JSON
values: finite numbers, strings, booleans, null, or absent (`undefined`).
`Rat` stands for the finite JS numbers; JSON cannot carry `NaN` or
`Infinity`, so `isFinite` is `true` throughout the model. -/

inductive JSVal where
  | vStr (s : String)
  | vNum (q : Rat)
  | vBool (b : Bool)
  | vNull
  | vUndef
deriving DecidableEq

/-- JS truthiness of a value. -/
def jsTruthy : JSVal → Bool
  | .vStr s => !(s == "")
  | .vNum q => !(q == 0)
  | .vBool b => b
  | .vNull => false
  | .vUndef => false

/-- Truthiness of an optional string field (`if (x)` on a string-or-absent
body field; an absent field is `undefined`). -/
def strTruthy : Option String → Bool
  | some s => !(s == "")
  | none => false

/-- `x || dflt` on an optional string field. -/
def strOrElse (v : Option String) (dflt : String) : String :=
  if strTruthy v then v.getD "" else dflt

/-- Decimal rendering used when a number is coerced to a string.  The claims
depend only on the result being a string, not on JS float formatting, which
is abstracted to this rational rendering. -/
def ratToString (q : Rat) : String :=
  if q.den == 1 then toString q.num else toString q.num ++ "/" ++ toString q.den

/-- `String(v)` on a JSON scalar. -/
def jsDisplay : JSVal → String
  | .vStr s => s
  | .vNum q => ratToString q
  | .vBool b => if b then "true" else "false"
  | .vNull => "null"
  | .vUndef => "undefined"

/-- `(v || "").toString()`: falsy values collapse to the empty string. -/
def jsOrEmptyToString (v : JSVal) : String :=
  if jsTruthy v then jsDisplay v else ""

def digitVal (c : Char) : Nat := c.toNat - 48

def natOfDigits (l : List Char) : Nat :=
  l.foldl (fun acc c => acc * 10 + digitVal c) 0

/-- `Number(s)` on a string, as `Option Rat` with `none` standing for `NaN`.
Modelled subset: surrounding spaces, empty string (gives `0`), an optional
sign followed by decimal digits with an optional fractional part.  Exponent,
hex, and `Infinity` forms are outside the model (all concrete inputs used in
this development stay inside the subset). -/
def parseJsNumber (s : String) : Option Rat :=
  let t := ((s.data.dropWhile (· == ' ')).reverse.dropWhile (· == ' ')).reverse
  match t with
  | [] => some 0
  | _ =>
    let sgn : Rat := if t.headD ' ' == '-' then -1 else 1
    let rest := if t.headD ' ' == '-' || t.headD ' ' == '+' then t.drop 1 else t
    let intPart := rest.takeWhile Char.isDigit
    let after := rest.drop intPart.length
    match after with
    | [] =>
      if intPart.isEmpty then none else some (sgn * (natOfDigits intPart : Rat))
    | '.' :: fr =>
      if fr.all Char.isDigit && !(intPart.isEmpty && fr.isEmpty) then
        some (sgn * ((natOfDigits intPart : Rat) +
          (natOfDigits fr : Rat) / ((10 : Rat) ^ fr.length)))
      else none
    | _ => none

/-- `Number(v)` on a JSON scalar (`none` is `NaN`). -/
def jsToNumber : JSVal → Option Rat
  | .vStr s => parseJsNumber s
  | .vNum q => some q
  | .vBool b => some (if b then 1 else 0)
  | .vNull => some 0
  | .vUndef => none

/-- `Number(v) || 0`: `NaN` falls back to `0` (and `0 || 0 = 0`). -/
def numberOr0 (v : JSVal) : Rat := (jsToNumber v).getD 0

/-- `isFinite` on a model number: `Rat` has no infinities or `NaN`. -/
def jsIsFinite (_q : Rat) : Bool := true

/-! ## Association-list stores

`findRow` models `select().eq(key, k).single()` respectively a file lookup;
`upsertList` models `upsert(..., onConflict)` respectively an overwrite;
`updateValue` models `update().eq(key, k)`; `removeKey` models
`delete().eq(key, k)` respectively `fs.rmSync`. -/

def findRow {α : Type} : List (String × α) → String → Option α
  | [], _ => none
  | p :: rest, k => if p.1 == k then some p.2 else findRow rest k

def upsertList {α : Type} : List (String × α) → String → α → List (String × α)
  | [], k, v => [(k, v)]
  | p :: rest, k, v => if p.1 == k then (k, v) :: rest else p :: upsertList rest k v

def updateValue {α : Type} : List (String × α) → String → α → List (String × α)
  | [], _, _ => []
  | p :: rest, k, v =>
    if p.1 == k then (k, v) :: updateValue rest k v else p :: updateValue rest k v

def removeKey {α : Type} (l : List (String × α)) (k : String) : List (String × α) :=
  l.filter (fun p => !(p.1 == k))

def countKey {α : Type} (l : List (String × α)) (k : String) : Nat :=
  (l.filter (fun p => p.1 == k)).length

/-! ## Data model -/

structure Vec3 where
  x : Rat := 0
  y : Rat := 0
  z : Rat := 0
deriving DecidableEq

structure PartMeta where
  name : String := ""
  notes : String := ""
  color : String := ""
  materialPreset : String := ""
deriving DecidableEq

/-- A row of the Supabase `projects` table, as created by POST /api/projects. -/
structure ProjectRow where
  id : String
  name : String
  author : String
  project_date : String
  password_hash : String
  position : Vec3
  rotation : Vec3
  model_path : Option String
  model_filename : Option String
  pending_notes : String
  parts_meta : List (String × PartMeta)
deriving DecidableEq

/-- A normalized quote line item, as stored by PUT /api/quotes/:id. -/
structure QItem where
  concepto : String
  cantidad : Rat
  precio : Rat
  link : String
deriving DecidableEq

/-- A row of the Supabase `quotes` table (keyed by `project_id`). -/
structure QuoteRow where
  project_id : String
  items : List QItem
  total : Rat
  updated_at : String
deriving DecidableEq

/-- The per-project `scene.json` document of the filesystem variants, with
the fields `writeScene` persists. -/
structure SceneDoc where
  projectName : String
  author : String
  date : String
  passwordHash : String
  position : Vec3
  rotation : Vec3
  modelFile : Option String
  pendingNotes : String
  partsMeta : List (String × PartMeta)
deriving DecidableEq

/-- The `cotizacion.json` document of the filesystem variants. -/
structure FsQuoteDoc where
  projectId : String
  projectName : String
  date : String
  items : List QItem
  total : Rat
deriving DecidableEq

/-- State of the Supabase variant: the `projects` and `quotes` tables and the
storage bucket (object path to file contents). -/
structure SbState where
  projects : List (String × ProjectRow)
  quotes : List (String × QuoteRow)
  storage : List (String × String)
deriving DecidableEq

/-- A folder under `public/` in the filesystem variants. -/
structure Folder where
  scene : Option SceneDoc := none
  files : List (String × String) := []
  quote : Option FsQuoteDoc := none
deriving DecidableEq

/-- State of the filesystem variants: the folders under `public/`. -/
structure FsState where
  publicDir : List (String × Folder)
deriving DecidableEq

/-- The project view returned to clients (note: no password-hash field). -/
structure ProjectView where
  id : String
  name : String
  author : String
  date : String
  position : Vec3
  rotation : Vec3
  modelFile : Option String
  modelUrl : Option String
  pendingNotes : String
  partsMeta : List (String × PartMeta)
deriving DecidableEq

/-- A JSON response: HTTP status plus the `ok`, `message`, `error`, and
payload fields the handlers emit. -/
structure ApiResp (α : Type) where
  status : Nat
  ok : Bool
  message : Option String := none
  error : Option String := none
  payload : Option α := none
deriving DecidableEq

def errResp (α : Type) (status : Nat) (msg : String) : ApiResp α :=
  { status := status, ok := false, error := some msg }

/-! ## Views -/

/-- Environment configuration of the Supabase variant (`SUPABASE_URL` and the
bucket, default `"models"`); only their presence matters to the claims. -/
def SUPABASE_URL : String := "https://example.supabase.co"

def SUPABASE_MODELS_BUCKET : String := "models"

/-- `supabase.storage.from(bucket).getPublicUrl(path).data.publicUrl`. -/
def getPublicUrl (objectPath : String) : String :=
  SUPABASE_URL ++ "/storage/v1/object/public/" ++ SUPABASE_MODELS_BUCKET ++ "/" ++ objectPath

/-- `projectRowToView` of `src/server.js` lines 54-78.  `row.author || ""`,
`row.project_date || ""`, `row.pending_notes || ""` and the object fallbacks
are identities here because the row fields are non-nullable in the model (all
writers set them). -/
def projectRowToView (row : ProjectRow) : ProjectView :=
  { id := row.id
    name := row.name
    author := row.author
    date := row.project_date
    position := row.position
    rotation := row.rotation
    modelFile := row.model_filename
    modelUrl := row.model_path.map getPublicUrl
    pendingNotes := row.pending_notes
    partsMeta := row.parts_meta }

/-- The client view `readScene` assembles and the filesystem handlers return
after destructuring away `passwordHash` and `_raw`
(`src/unnamed/part_000` lines 84-97). -/
def sceneToView (folder : String) (s : SceneDoc) : ProjectView :=
  { id := folder
    name := if s.projectName == "" then folder else s.projectName
    author := s.author
    date := s.date
    position := s.position
    rotation := s.rotation
    modelFile := s.modelFile
    modelUrl := s.modelFile.map (fun f => "/public/" ++ folder ++ "/" ++ f)
    pendingNotes := s.pendingNotes
    partsMeta := s.partsMeta }

/-! ## Requests -/

/-- A multer upload (`req.file`): original client file name and contents. -/
structure UploadFile where
  originalname : String
  content : String
deriving DecidableEq

/-- Result of `JSON.parse` on an optional position/rotation form field:
absent (or falsy), invalid JSON, or a parsed vector. -/
inductive JsonField where
  | absent
  | bad
  | okV (v : Vec3)
deriving DecidableEq

def parsedVec : JsonField → Vec3
  | .okV v => v
  | _ => {}

structure CreateReq where
  projectName : Option String := none
  author : Option String := none
  date : Option String := none
  password : Option String := none
  position : JsonField := .absent
  rotation : JsonField := .absent
  file : Option UploadFile := none
deriving DecidableEq

structure TransformReq where
  password : Option String := none
  position : Option Vec3 := none
  rotation : Option Vec3 := none
deriving DecidableEq

structure ModelReq where
  file : Option UploadFile := none
deriving DecidableEq

structure RenameReq where
  name : Option String := none
  password : Option String := none
deriving DecidableEq

/-- `notes` is `some s` when the body carries a string (`typeof notes ===
"string"`), `none` when absent or of another type. -/
structure NotesReq where
  notes : Option String := none
  password : Option String := none
deriving DecidableEq

structure PartsMetaReq where
  partId : Option JSVal := none
  name : Option String := none
  notes : Option String := none
  color : Option String := none
  materialPreset : Option String := none
  password : Option String := none
deriving DecidableEq

structure DeleteReq where
  password : Option String := none
deriving DecidableEq

/-- A raw quote line item from the request body; absent fields are `vUndef`. -/
structure RawItem where
  concepto : JSVal := .vUndef
  cantidad : JSVal := .vUndef
  precio : JSVal := .vUndef
  link : JSVal := .vUndef
deriving DecidableEq

/-- `items` is `some l` exactly when the body field passes `Array.isArray`. -/
structure QuoteReq where
  password : Option String := none
  items : Option (List RawItem) := none
  total : JSVal := .vUndef
deriving DecidableEq

/-- `normalizedItems = items.map(...)` of PUT /api/quotes/:id (both variants). -/
def normalizeItem (it : RawItem) : QItem :=
  { concepto := jsOrEmptyToString it.concepto
    cantidad := numberOr0 it.cantidad
    precio := numberOr0 it.precio
    link := jsOrEmptyToString it.link }

/-- `path.extname` restricted to bare file names: the suffix from the last
dot, empty when there is no dot or the only dot starts the name. -/
def lastDotSuffix : List Char → Option (List Char)
  | [] => none
  | c :: rest =>
    match lastDotSuffix rest with
    | some suf => some suf
    | none => if c == '.' then some (c :: rest) else none

def extname (s : String) : String :=
  match s.data with
  | [] => ""
  | _ :: rest =>
    match lastDotSuffix rest with
    | some suf => String.mk suf
    | none => ""

/-! ## Supabase-variant handlers (`src/server.js` lines 181-906)

Each handler is a function from state and request to response and new state.
Backend calls (storage upload with `upsert: true`, row update, delete) are
modelled as succeeding; `insert` fails with the 500 path when a row with the
same id already exists (unique id column, as assumed by
`select().eq("id").single()`). -/

structure SbCreatePayload where
  projectId : String
  project : ProjectView
deriving DecidableEq

structure QuoteOut where
  projectId : String
  items : List QItem
  total : Rat
deriving DecidableEq

/-- POST /api/projects (Supabase variant, lines 181-277).  `today` stands for
`new Date().toISOString().slice(0, 10)`. -/
def sbCreateProject (st : SbState) (today : String) (r : CreateReq) :
    ApiResp SbCreatePayload × SbState :=
  match r.file with
  | none => (errResp _ 400 "projectName, password y model son obligatorios.", st)
  | some file =>
    if !(strTruthy r.projectName) || !(strTruthy r.password) then
      (errResp _ 400 "projectName, password y model son obligatorios.", st)
    else
      let folderSlug := slugify (r.projectName.getD "")
      let positionObj := parsedVec r.position
      let rotationObj := parsedVec r.rotation
      let ext := extname file.originalname
      let modelFileName := "modelo" ++ ext
      let objectPath := folderSlug ++ "/" ++ modelFileName
      let storage1 := upsertList st.storage objectPath file.content
      let passwordHash := hashPassword (r.password.getD "")
      let row : ProjectRow :=
        { id := folderSlug
          name := r.projectName.getD ""
          author := strOrElse r.author ""
          project_date := strOrElse r.date today
          password_hash := passwordHash
          position := positionObj
          rotation := rotationObj
          model_path := some objectPath
          model_filename := some modelFileName
          pending_notes := ""
          parts_meta := [] }
      match findRow st.projects folderSlug with
      | some _ =>
        (errResp _ 500 "Error interno al crear el proyecto.",
         { st with storage := storage1 })
      | none =>
        ({ status := 201, ok := true, message := some "Proyecto creado."
           payload := some { projectId := folderSlug, project := projectRowToView row } },
         { st with projects := st.projects ++ [(folderSlug, row)], storage := storage1 })

/-- GET /api/projects (Supabase variant, lines 283-301); the row order of the
`created_at` sort is abstracted to the list order of the table. -/
def sbListProjects (st : SbState) : ApiResp (List ProjectView) :=
  { status := 200, ok := true
    payload := some (st.projects.map (fun p => projectRowToView p.2)) }

/-- GET /api/projects/:id (lines 321-342). -/
def sbGetProject (st : SbState) (id : String) : ApiResp ProjectView :=
  match findRow st.projects id with
  | none => errResp _ 404 "Proyecto no encontrado."
  | some row => { status := 200, ok := true, payload := some (projectRowToView row) }

/-- PUT /api/projects/:id/transform (lines 348-397).  The password is only
checked when the body supplies a truthy one. -/
def sbPutTransform (st : SbState) (id : String) (r : TransformReq) :
    ApiResp ProjectView × SbState :=
  match findRow st.projects id with
  | none => (errResp _ 404 "Proyecto no encontrado.", st)
  | some proj =>
    if strTruthy r.password &&
        !(hashPassword (r.password.getD "") == proj.password_hash) then
      (errResp _ 403 "Contraseña incorrecta.", st)
    else
      let newPosition := r.position.getD proj.position
      let newRotation := r.rotation.getD proj.rotation
      let updatedRow := { proj with position := newPosition, rotation := newRotation }
      ({ status := 200, ok := true, payload := some (projectRowToView updatedRow) },
       { st with projects := updateValue st.projects id updatedRow })

/-- PUT /api/projects/:id/model (lines 403-482).  No password check appears
anywhere in this handler. -/
def sbPutModel (st : SbState) (id : String) (r : ModelReq) :
    ApiResp ProjectView × SbState :=
  match r.file with
  | none => (errResp _ 400 "Archivo de modelo requerido.", st)
  | some file =>
    match findRow st.projects id with
    | none => (errResp _ 404 "Proyecto no encontrado.", st)
    | some proj =>
      let storage0 :=
        match proj.model_path with
        | some p => removeKey st.storage p
        | none => st.storage
      let ext := extname file.originalname
      let modelFileName := "modelo" ++ ext
      let objectPath := id ++ "/" ++ modelFileName
      let storage1 := upsertList storage0 objectPath file.content
      let updatedRow :=
        { proj with model_path := some objectPath, model_filename := some modelFileName }
      ({ status := 200, ok := true, message := some "Modelo reemplazado."
         payload := some (projectRowToView updatedRow) },
       { st with projects := updateValue st.projects id updatedRow, storage := storage1 })

/-- PUT /api/projects/:id/rename (lines 487-538). -/
def sbPutRename (st : SbState) (id : String) (r : RenameReq) :
    ApiResp ProjectView × SbState :=
  if !(strTruthy r.name) || !(strTruthy r.password) then
    (errResp _ 400 "name y password son obligatorios.", st)
  else
    match findRow st.projects id with
    | none => (errResp _ 404 "Proyecto no encontrado.", st)
    | some proj =>
      if !(hashPassword (r.password.getD "") == proj.password_hash) then
        (errResp _ 403 "Contraseña incorrecta.", st)
      else
        let updatedRow := { proj with name := r.name.getD "" }
        ({ status := 200, ok := true, message := some "Proyecto renombrado."
           payload := some (projectRowToView updatedRow) },
         { st with projects := updateValue st.projects id updatedRow })

/-- PUT /api/projects/:id/notes (lines 543-595). -/
def sbPutNotes (st : SbState) (id : String) (r : NotesReq) :
    ApiResp ProjectView × SbState :=
  if r.notes.isNone || !(strTruthy r.password) then
    (errResp _ 400 "notes (string) y password son obligatorios.", st)
  else
    match findRow st.projects id with
    | none => (errResp _ 404 "Proyecto no encontrado.", st)
    | some proj =>
      if !(hashPassword (r.password.getD "") == proj.password_hash) then
        (errResp _ 403 "Contraseña incorrecta.", st)
      else
        let updatedRow := { proj with pending_notes := r.notes.getD "" }
        ({ status := 200, ok := true, message := some "Notas guardadas."
           payload := some (projectRowToView updatedRow) },
         { st with projects := updateValue st.projects id updatedRow })

/-- PUT /api/projects/:id/parts-meta (lines 600-667). -/
def sbPutPartsMeta (st : SbState) (id : String) (r : PartsMetaReq) :
    ApiResp ProjectView × SbState :=
  if r.partId.isNone || !(strTruthy r.password) then
    (errResp _ 400 "partId y password son obligatorios.", st)
  else
    match findRow st.projects id with
    | none => (errResp _ 404 "Proyecto no encontrado.", st)
    | some proj =>
      if !(hashPassword (r.password.getD "") == proj.password_hash) then
        (errResp _ 403 "Contraseña incorrecta.", st)
      else
        let key := jsDisplay (r.partId.getD .vUndef)
        let old := (findRow proj.parts_meta key).getD {}
        let newMeta : PartMeta :=
          { name := match r.name with | some v => v | none => old.name
            notes := match r.notes with | some v => v | none => old.notes
            color := match r.color with
              | some v => v
              | none => if old.color == "" then "#22c55e" else old.color
            materialPreset := match r.materialPreset with
              | some v => v
              | none => if old.materialPreset == "" then "plastic" else old.materialPreset }
        let updatedRow := { proj with parts_meta := upsertList proj.parts_meta key newMeta }
        ({ status := 200, ok := true, message := some "Metadatos de pieza guardados."
           payload := some (projectRowToView updatedRow) },
         { st with projects := updateValue st.projects id updatedRow })

/-- DELETE /api/projects/:id (lines 672-723).  The password-presence check
precedes the row lookup. -/
def sbDeleteProject (st : SbState) (id : String) (r : DeleteReq) :
    ApiResp Unit × SbState :=
  if !(strTruthy r.password) then
    (errResp _ 400 "Contraseña requerida.", st)
  else
    match findRow st.projects id with
    | none => (errResp _ 404 "Proyecto no encontrado.", st)
    | some proj =>
      if !(hashPassword (r.password.getD "") == proj.password_hash) then
        (errResp _ 403 "Contraseña incorrecta.", st)
      else
        let storage1 :=
          match proj.model_path with
          | some p => removeKey st.storage p
          | none => st.storage
        ({ status := 200, ok := true, message := some "Proyecto eliminado." },
         { st with projects := removeKey st.projects id, storage := storage1 })

/-- GET /api/quotes/:id (lines 733-766). -/
def sbGetQuote (st : SbState) (id : String) : ApiResp QuoteOut :=
  match findRow st.quotes id with
  | none => errResp _ 404 "No hay cotización guardada para este proyecto."
  | some q =>
    { status := 200, ok := true
      payload := some { projectId := q.project_id, items := q.items, total := q.total } }

/-- PUT /api/quotes/:id (lines 772-850).  `now` stands for
`new Date().toISOString()`. -/
def sbPutQuote (st : SbState) (id : String) (now : String) (r : QuoteReq) :
    ApiResp QuoteOut × SbState :=
  if !(strTruthy r.password) || r.items.isNone then
    (errResp _ 400 "password e items (array) son obligatorios.", st)
  else
    match findRow st.projects id with
    | none => (errResp _ 404 "Proyecto no encontrado.", st)
    | some proj =>
      if !(hashPassword (r.password.getD "") == proj.password_hash) then
        (errResp _ 403 "Contraseña incorrecta.", st)
      else
        let normalizedItems := (r.items.getD []).map normalizeItem
        let computedTotal0 :=
          normalizedItems.foldl (fun acc it => acc + it.cantidad * it.precio) 0
        let computedTotal := if jsIsFinite computedTotal0 then computedTotal0 else 0
        let finalTotal :=
          match r.total with
          | .vNum q => q
          | _ => computedTotal
        let qrow : QuoteRow :=
          { project_id := id, items := normalizedItems, total := finalTotal
            updated_at := now }
        ({ status := 200, ok := true, message := some "Cotización guardada."
           payload := some { projectId := id, items := normalizedItems, total := finalTotal } },
         { st with quotes := upsertList st.quotes id qrow })

/-! ## Filesystem-variant handlers (`src/unnamed/part_000`, and the identical
handlers of the Firebase document in `src/server.js` lines 1105-1608) -/

def getFolder (st : FsState) (k : String) : Option Folder :=
  findRow st.publicDir k

/-- `mkdirSync(dir, { recursive: true })` plus a folder rewrite. -/
def setFolder (st : FsState) (k : String) (f : Folder) : FsState :=
  ⟨upsertList st.publicDir k f⟩

/-- `readScene`: `none` when the folder or its `scene.json` is missing. -/
def readScene (st : FsState) (folder : String) : Option SceneDoc :=
  (getFolder st folder).bind (fun f => f.scene)

/-- `writeScene`. -/
def fsPutScene (st : FsState) (k : String) (doc : SceneDoc) : FsState :=
  setFolder st k { (getFolder st k).getD {} with scene := some doc }

def fsPutFile (st : FsState) (k fname content : String) : FsState :=
  let folder := (getFolder st k).getD {}
  setFolder st k { folder with files := upsertList folder.files fname content }

def fsRemoveFile (st : FsState) (k fname : String) : FsState :=
  match getFolder st k with
  | none => st
  | some folder => setFolder st k { folder with files := removeKey folder.files fname }

structure FsCreatePayload where
  projectId : String
  projectFolder : String
  modelFile : String
  sceneFile : String
deriving DecidableEq

/-- POST /api/projects (filesystem variant, `part_000` lines 115-182). -/
def fsCreateProject (st : FsState) (today : String) (r : CreateReq) :
    ApiResp FsCreatePayload × FsState :=
  match r.file with
  | none => (errResp _ 400 "projectName, password y model son obligatorios.", st)
  | some file =>
    if !(strTruthy r.projectName) || !(strTruthy r.password) then
      (errResp _ 400 "projectName, password y model son obligatorios.", st)
    else
      let folderSlug := slugify (r.projectName.getD "")
      let ext := extname file.originalname
      let modelFileName := "modelo" ++ ext
      let sceneDoc : SceneDoc :=
        { projectName := r.projectName.getD ""
          author := strOrElse r.author ""
          date := strOrElse r.date today
          passwordHash := hashPassword (r.password.getD "")
          position := parsedVec r.position
          rotation := parsedVec r.rotation
          modelFile := some modelFileName
          pendingNotes := ""
          partsMeta := [] }
      let st1 := fsPutFile st folderSlug modelFileName file.content
      let st2 := fsPutScene st1 folderSlug sceneDoc
      ({ status := 201, ok := true, message := some "Proyecto creado."
         payload := some { projectId := folderSlug
                           projectFolder := "public/" ++ folderSlug
                           modelFile := modelFileName
                           sceneFile := "scene.json" } }, st2)

/-- GET /api/projects (filesystem variant, lines 189-210): folders without a
readable scene are skipped. -/
def fsListProjects (st : FsState) : ApiResp (List ProjectView) :=
  { status := 200, ok := true
    payload := some (st.publicDir.filterMap
      (fun p => p.2.scene.map (sceneToView p.1))) }

/-- GET /api/projects/:id (lines 217-231). -/
def fsGetProject (st : FsState) (id : String) : ApiResp ProjectView :=
  match readScene st id with
  | none => errResp _ 404 "Proyecto no encontrado."
  | some s => { status := 200, ok := true, payload := some (sceneToView id s) }

/-- PUT /api/projects/:id/transform (lines 238-276); the password is only
validated when the body supplies a truthy one. -/
def fsPutTransform (st : FsState) (id : String) (r : TransformReq) :
    ApiResp ProjectView × FsState :=
  match readScene st id with
  | none => (errResp _ 404 "Proyecto no encontrado.", st)
  | some scene =>
    if strTruthy r.password &&
        !(hashPassword (r.password.getD "") == scene.passwordHash) then
      (errResp _ 403 "Contraseña incorrecta.", st)
    else
      let position := r.position.getD scene.position
      let rotation := r.rotation.getD scene.rotation
      let sceneDoc := { scene with position := position, rotation := rotation }
      ({ status := 200, ok := true, payload := some (sceneToView id sceneDoc) },
       fsPutScene st id sceneDoc)

/-- PUT /api/projects/:id/model (lines 283-330); again no password check. -/
def fsPutModel (st : FsState) (id : String) (r : ModelReq) :
    ApiResp ProjectView × FsState :=
  match readScene st id with
  | none => (errResp _ 404 "Proyecto no encontrado.", st)
  | some scene =>
    match r.file with
    | none => (errResp _ 400 "Archivo de modelo requerido.", st)
    | some file =>
      let st0 :=
        match scene.modelFile with
        | some old => fsRemoveFile st id old
        | none => st
      let ext := extname file.originalname
      let modelFileName := "modelo" ++ ext
      let st1 := fsPutFile st0 id modelFileName file.content
      let sceneDoc := { scene with modelFile := some modelFileName }
      ({ status := 200, ok := true, message := some "Modelo reemplazado."
         payload := some (sceneToView id sceneDoc) },
       fsPutScene st1 id sceneDoc)

/-- PUT /api/projects/:id/rename (lines 337-373); the scene lookup precedes
the field validation, unlike the Supabase variant. -/
def fsPutRename (st : FsState) (id : String) (r : RenameReq) :
    ApiResp ProjectView × FsState :=
  match readScene st id with
  | none => (errResp _ 404 "Proyecto no encontrado.", st)
  | some scene =>
    if !(strTruthy r.name) || !(strTruthy r.password) then
      (errResp _ 400 "name y password son obligatorios.", st)
    else if !(hashPassword (r.password.getD "") == scene.passwordHash) then
      (errResp _ 403 "Contraseña incorrecta.", st)
    else
      let sceneDoc := { scene with projectName := r.name.getD "" }
      ({ status := 200, ok := true, message := some "Proyecto renombrado."
         payload := some (sceneToView id sceneDoc) },
       fsPutScene st id sceneDoc)

/-- PUT /api/projects/:id/notes (lines 380-417). -/
def fsPutNotes (st : FsState) (id : String) (r : NotesReq) :
    ApiResp ProjectView × FsState :=
  match readScene st id with
  | none => (errResp _ 404 "Proyecto no encontrado.", st)
  | some scene =>
    if r.notes.isNone || !(strTruthy r.password) then
      (errResp _ 400 "notes (string) y password son obligatorios.", st)
    else if !(hashPassword (r.password.getD "") == scene.passwordHash) then
      (errResp _ 403 "Contraseña incorrecta.", st)
    else
      let sceneDoc := { scene with pendingNotes := r.notes.getD "" }
      ({ status := 200, ok := true, message := some "Notas guardadas."
         payload := some (sceneToView id sceneDoc) },
       fsPutScene st id sceneDoc)

/-- PUT /api/projects/:id/parts-meta (lines 424-479). -/
def fsPutPartsMeta (st : FsState) (id : String) (r : PartsMetaReq) :
    ApiResp ProjectView × FsState :=
  match readScene st id with
  | none => (errResp _ 404 "Proyecto no encontrado.", st)
  | some scene =>
    if r.partId.isNone || !(strTruthy r.password) then
      (errResp _ 400 "partId y password son obligatorios.", st)
    else if !(hashPassword (r.password.getD "") == scene.passwordHash) then
      (errResp _ 403 "Contraseña incorrecta.", st)
    else
      let key := jsDisplay (r.partId.getD .vUndef)
      let old := (findRow scene.partsMeta key).getD {}
      let newMeta : PartMeta :=
        { name := match r.name with | some v => v | none => old.name
          notes := match r.notes with | some v => v | none => old.notes
          color := match r.color with
            | some v => v
            | none => if old.color == "" then "#22c55e" else old.color
          materialPreset := match r.materialPreset with
            | some v => v
            | none => if old.materialPreset == "" then "plastic" else old.materialPreset }
      let sceneDoc := { scene with partsMeta := upsertList scene.partsMeta key newMeta }
      ({ status := 200, ok := true, message := some "Metadatos de pieza guardados."
         payload := some (sceneToView id sceneDoc) },
       fsPutScene st id sceneDoc)

/-- DELETE /api/projects/:id (lines 486-518); the scene lookup precedes the
password-presence check, unlike the Supabase variant. -/
def fsDeleteProject (st : FsState) (id : String) (r : DeleteReq) :
    ApiResp Unit × FsState :=
  match readScene st id with
  | none => (errResp _ 404 "Proyecto no encontrado.", st)
  | some scene =>
    if !(strTruthy r.password) then
      (errResp _ 400 "Contraseña requerida.", st)
    else if !(hashPassword (r.password.getD "") == scene.passwordHash) then
      (errResp _ 403 "Contraseña incorrecta.", st)
    else
      ({ status := 200, ok := true, message := some "Proyecto eliminado." },
       ⟨removeKey st.publicDir id⟩)

/-- GET /api/quotes/:id (filesystem variants): returns the whole stored
`cotizacion.json` document. -/
def fsGetQuote (st : FsState) (id : String) : ApiResp FsQuoteDoc :=
  match (getFolder st id).bind (fun f => f.quote) with
  | none => errResp _ 404 "No hay cotización guardada para este proyecto."
  | some q => { status := 200, ok := true, payload := some q }

/-- PUT /api/quotes/:id (filesystem variants; `src/server.js` lines
1544-1608).  `typeof total === "number"` has no `isFinite` conjunct here, but
the two conditions coincide on JSON-carried numbers. -/
def fsPutQuote (st : FsState) (id : String) (now : String) (r : QuoteReq) :
    ApiResp FsQuoteDoc × FsState :=
  match readScene st id with
  | none => (errResp _ 404 "Proyecto no encontrado.", st)
  | some scene =>
    if !(strTruthy r.password) || r.items.isNone then
      (errResp _ 400 "password e items (array) son obligatorios.", st)
    else if !(hashPassword (r.password.getD "") == scene.passwordHash) then
      (errResp _ 403 "Contraseña incorrecta.", st)
    else
      let normalizedItems := (r.items.getD []).map normalizeItem
      let computedTotal0 :=
        normalizedItems.foldl (fun acc it => acc + it.cantidad * it.precio) 0
      let computedTotal := if jsIsFinite computedTotal0 then computedTotal0 else 0
      let quoteDoc : FsQuoteDoc :=
        { projectId := id
          projectName := if scene.projectName == "" then id else scene.projectName
          date := now
          items := normalizedItems
          total := match r.total with
            | .vNum q => q
            | _ => computedTotal }
      let folder := (getFolder st id).getD {}
      ({ status := 200, ok := true, message := some "Cotización guardada."
         payload := some quoteDoc },
       setFolder st id { folder with quote := some quoteDoc })

/-! ## Quote workbook (`buildQuoteWorkbook`, Supabase variant lines 84-110) -/

inductive Cell where
  | s (v : String)
  | n (v : Rat)
  | blank
deriving DecidableEq

/-- A sheet row; `json_to_sheet` is called with exactly the four headers
`Concepto`, `Cantidad`, `Precio`, `Importe`, and every pushed row object has
at most these keys, so a row is a record of four cells (no link column). -/
structure WRow where
  Concepto : Cell := .blank
  Cantidad : Cell := .blank
  Precio : Cell := .blank
  Importe : Cell := .blank
deriving DecidableEq

structure Workbook where
  sheetName : String
  header : List String
  rows : List WRow
deriving DecidableEq

/-- The `rows.push({})` spacer row: all four cells empty. -/
def emptyWRow : WRow := ⟨.blank, .blank, .blank, .blank⟩

/-- `buildQuoteWorkbook` (Supabase variant).  `Number(it.cantidad) || 0` and
`Number(quoteDoc.total) || 0` are identities on the stored rational fields
(`Number` is the identity on numbers and `0 || 0 = 0`). -/
def buildQuoteWorkbook (q : QuoteOut) : Workbook :=
  let rows := q.items.map (fun it =>
    let cantidad := it.cantidad
    let precio := it.precio
    { Concepto := Cell.s it.concepto
      Cantidad := Cell.n cantidad
      Precio := Cell.n precio
      Importe := Cell.n (cantidad * precio) : WRow })
  let rows := rows ++ [emptyWRow]
  let rows := rows ++ [{ Concepto := Cell.s "TOTAL", Cantidad := Cell.s ""
                         Precio := Cell.s "", Importe := Cell.n q.total }]
  { sheetName := "Cotización"
    header := ["Concepto", "Cantidad", "Precio", "Importe"]
    rows := rows }

/-! ## Hash rewriting (for the noninterference statement of claim C10) -/

def setRowHash (f : String → String) (row : ProjectRow) : ProjectRow :=
  { row with password_hash := f row.password_hash }

/-- The Supabase state with every stored password hash rewritten by `f`. -/
def sbSetHashes (st : SbState) (f : String → String) : SbState :=
  { st with projects := st.projects.map (fun p => (p.1, setRowHash f p.2)) }

def setSceneHash (f : String → String) (s : SceneDoc) : SceneDoc :=
  { s with passwordHash := f s.passwordHash }

def setFolderHash (f : String → String) (fo : Folder) : Folder :=
  { fo with scene := fo.scene.map (setSceneHash f) }

/-- The filesystem state with every stored password hash rewritten by `f`. -/
def fsSetHashes (st : FsState) (f : String → String) : FsState :=
  ⟨st.publicDir.map (fun p => (p.1, setFolderHash f p.2))⟩

/-! ## Concrete fixtures used by witnesses and counterexamples -/

def sampleRow : ProjectRow :=
  { id := "p"
    name := "Proyecto P"
    author := "ana"
    project_date := "2026-01-01"
    password_hash := hashPassword "right"
    position := {}
    rotation := {}
    model_path := some "p/modelo.glb"
    model_filename := some "modelo.glb"
    pending_notes := ""
    parts_meta := [] }

def sampleSb : SbState :=
  { projects := [("p", sampleRow)]
    quotes := []
    storage := [("p/modelo.glb", "GLB")] }

def sampleScene : SceneDoc :=
  { projectName := "Proyecto P"
    author := "ana"
    date := "2026-01-01"
    passwordHash := hashPassword "right"
    position := {}
    rotation := {}
    modelFile := some "modelo.glb"
    pendingNotes := ""
    partsMeta := [] }

def sampleFs : FsState :=
  ⟨[("p", { scene := some sampleScene, files := [("modelo.glb", "GLB")] })]⟩

def emptySb : SbState := ⟨[], [], []⟩

def emptyFs : FsState := ⟨[]⟩

/-- A name whose slug reaches 41 characters before truncation, so that
`substring(0, 40)` cuts directly after a hyphen. -/
def slugInput : String := "a a a a a a a a a a a a a a a a a a a a a"

/-! ## Association-list lemmas -/

theorem findRow_upsert_self {α : Type} (l : List (String × α)) (k : String) (v : α) :
    findRow (upsertList l k v) k = some v := by
  induction l with
  | nil => simp [upsertList, findRow]
  | cons p rest ih =>
    by_cases h : p.1 == k
    · simp [upsertList, findRow, h]
    · simp [upsertList, findRow, h, ih]

theorem findRow_update_self {α : Type} (l : List (String × α)) (k : String)
    (v0 v : α) (h : findRow l k = some v0) :
    findRow (updateValue l k v) k = some v := by
  induction l with
  | nil => simp [findRow] at h
  | cons p rest ih =>
    by_cases hk : p.1 == k
    · simp [updateValue, findRow, hk]
    · simp [findRow, hk] at h
      simp [updateValue, findRow, hk, ih h]

theorem countKey_eq_zero_of_find_none {α : Type} (l : List (String × α)) (k : String)
    (h : findRow l k = none) : countKey l k = 0 := by
  induction l with
  | nil => simp [countKey]
  | cons p rest ih =>
    by_cases hk : p.1 == k
    · simp [findRow, hk] at h
    · simp [findRow, hk] at h
      simpa [countKey, List.filter, hk] using ih h

theorem countKey_cons {α : Type} (p : String × α) (rest : List (String × α)) (k : String) :
    countKey (p :: rest) k = (if p.1 == k then 1 else 0) + countKey rest k := by
  by_cases hk : p.1 == k <;> simp [countKey, List.filter_cons, hk, Nat.add_comm]

theorem countKey_upsert {α : Type} (l : List (String × α)) (k : String) (v : α)
    (h : countKey l k ≤ 1) : countKey (upsertList l k v) k = 1 := by
  induction l with
  | nil => simp [upsertList, countKey, List.filter]
  | cons p rest ih =>
    by_cases hk : p.1 == k
    · have hcons := countKey_cons p rest k
      have hcnt : countKey rest k = 0 := by
        rw [hcons] at h
        simp [hk] at h
        omega
      rw [show upsertList (p :: rest) k v = (k, v) :: rest by simp [upsertList, hk]]
      rw [countKey_cons]
      simp [hcnt]
    · have hrest : countKey rest k ≤ 1 := by
        rw [countKey_cons] at h
        omega
      rw [show upsertList (p :: rest) k v = p :: upsertList rest k v by
        simp [upsertList, hk]]
      rw [countKey_cons, ih hrest]
      simp [hk]

theorem findRow_mapVal {α β : Type} (l : List (String × α)) (g : α → β) (k : String) :
    findRow (l.map (fun p => (p.1, g p.2))) k = (findRow l k).map g := by
  induction l with
  | nil => simp [findRow]
  | cons p rest ih =>
    by_cases hk : p.1 == k
    · simp [findRow, hk]
    · simp [findRow, hk, ih]

/-! ## slugify lemmas -/

theorem mem_dashRuns {c : Char} : ∀ (b : Bool) (l : List Char),
    c ∈ dashRuns b l → isLowerAlnum c = true ∨ c = '-' := by
  intro b l
  induction l generalizing b with
  | nil => simp [dashRuns]
  | cons a rest ih =>
    intro h
    by_cases ha : isLowerAlnum a
    · simp [dashRuns, ha] at h
      rcases h with h | h
      · exact Or.inl (h ▸ ha)
      · exact ih false h
    · by_cases hb : b
      · simp [dashRuns, ha, hb] at h
        exact ih true h
      · simp [dashRuns, ha, hb] at h
        rcases h with h | h
        · exact Or.inr h
        · exact ih true h

theorem mem_rtrimDash {c : Char} : ∀ l : List Char, c ∈ rtrimDash l → c ∈ l := by
  intro l
  induction l with
  | nil => simp [rtrimDash]
  | cons a rest ih =>
    intro h
    cases hr : rtrimDash rest with
    | nil =>
      by_cases ha : a == '-'
      · rw [show rtrimDash (a :: rest) = [] by simp [rtrimDash, hr, ha]] at h
        simp at h
      · rw [show rtrimDash (a :: rest) = [a] by simp [rtrimDash, hr, ha]] at h
        simp at h
        simp [h]
    | cons x xs =>
      rw [show rtrimDash (a :: rest) = a :: rtrimDash rest by
        simp [rtrimDash, hr]] at h
      rcases List.mem_cons.mp h with h | h
      · simp [h]
      · exact List.mem_cons_of_mem a (ih (hr ▸ h))

theorem rtrimDash_head : ∀ l : List Char,
    rtrimDash l = [] ∨ (rtrimDash l).head? = l.head? := by
  intro l
  cases l with
  | nil => exact Or.inl rfl
  | cons a rest =>
    cases hr : rtrimDash rest with
    | nil =>
      by_cases ha : a == '-'
      · exact Or.inl (by simp [rtrimDash, hr, ha])
      · refine Or.inr ?_
        rw [show rtrimDash (a :: rest) = [a] by simp [rtrimDash, hr, ha]]
        rfl
    | cons x xs =>
      refine Or.inr ?_
      rw [show rtrimDash (a :: rest) = a :: rtrimDash rest by simp [rtrimDash, hr]]
      rfl

theorem dropWhile_dash_head : ∀ (l : List Char) (c : Char),
    (l.dropWhile (· == '-')).head? = some c → ¬(c = '-') := by
  intro l
  induction l with
  | nil => intro c h; simp at h
  | cons a rest ih =>
    intro c h
    by_cases ha : a == '-'
    · rw [List.dropWhile_cons_of_pos (by simpa using ha)] at h
      exact ih c h
    · rw [List.dropWhile_cons_of_neg (by simpa using ha)] at h
      simp at h
      intro hc
      rw [h] at ha
      simp [hc] at ha

theorem dashRuns_all_dash : ∀ (b : Bool) (l : List Char),
    (∀ c ∈ l, isLowerAlnum c = false) → ∀ c ∈ dashRuns b l, c = '-' := by
  intro b l
  induction l generalizing b with
  | nil => simp [dashRuns]
  | cons a rest ih =>
    intro hall c hc
    have ha : isLowerAlnum a = false := hall a (by simp)
    have hrest : ∀ x ∈ rest, isLowerAlnum x = false :=
      fun x hx => hall x (List.mem_cons_of_mem a hx)
    by_cases hb : b
    · simp [dashRuns, ha, hb] at hc
      exact ih true hrest c hc
    · simp [dashRuns, ha, hb] at hc
      rcases hc with hc | hc
      · exact hc
      · exact ih true hrest c hc

theorem dropWhile_dash_all (l : List Char) (h : ∀ c ∈ l, c = '-') :
    l.dropWhile (· == '-') = [] := by
  induction l with
  | nil => rfl
  | cons a rest ih =>
    have ha : a = '-' := h a (by simp)
    rw [List.dropWhile_cons_of_pos (by simp [ha])]
    exact ih (fun c hc => h c (List.mem_cons_of_mem a hc))

theorem readScene_putScene (st : FsState) (k : String) (doc : SceneDoc) :
    readScene (fsPutScene st k doc) k = some doc := by
  unfold readScene fsPutScene setFolder getFolder
  rw [findRow_upsert_self]
  rfl

/-! ## Noninterference lemmas for the views -/

theorem readScene_setHashes (st : FsState) (f : String → String) (id : String) :
    readScene (fsSetHashes st f) id = (readScene st id).map (setSceneHash f) := by
  unfold readScene fsSetHashes getFolder
  rw [findRow_mapVal]
  cases findRow st.publicDir id <;> rfl

theorem slugTrim_all (l : List Char) :
    (((rtrimDash (ltrimDash (dashRuns false l))).take 40).all
      (fun c => isLowerAlnum c || c == '-')) = true := by
  rw [List.all_eq_true]
  intro c hc
  have h1 : c ∈ rtrimDash (ltrimDash (dashRuns false l)) :=
    List.take_subset 40 _ hc
  have h2 : c ∈ ltrimDash (dashRuns false l) := mem_rtrimDash _ h1
  have h3 : c ∈ dashRuns false l :=
    (List.dropWhile_sublist (· == '-')).subset h2
  rcases mem_dashRuns false l h3 with h | h
  · simp [h]
  · simp [h]

theorem head_take40 (l : List Char) (h : l ≠ []) : (l.take 40).head? = l.head? := by
  cases l with
  | nil => exact absurd rfl h
  | cons a rest => rfl

theorem slugTrim_head (l : List Char)
    (hne : (rtrimDash (ltrimDash (dashRuns false l))).take 40 ≠ []) :
    ((rtrimDash (ltrimDash (dashRuns false l))).take 40).head? ≠ some '-' := by
  have hT : rtrimDash (ltrimDash (dashRuns false l)) ≠ [] := by
    intro h
    rw [h] at hne
    exact hne rfl
  rw [head_take40 _ hT]
  rcases rtrimDash_head (ltrimDash (dashRuns false l)) with h | h
  · exact absurd h hT
  · rw [h]
    intro hcon
    exact dropWhile_dash_head _ '-' hcon rfl

theorem slugTrim_empty_of_no_alnum (l : List Char)
    (h : (l.all (fun c => !isLowerAlnum c)) = true) :
    rtrimDash (ltrimDash (dashRuns false l)) = [] := by
  have hfalse : ∀ c ∈ l, isLowerAlnum c = false := by
    intro c hc
    have := List.all_eq_true.mp h c hc
    simpa using this
  have hdash : ∀ c ∈ dashRuns false l, c = '-' := dashRuns_all_dash false l hfalse
  have hemp : ltrimDash (dashRuns false l) = [] := dropWhile_dash_all _ hdash
  rw [hemp]
  rfl

/-! ## Claim theorems -/

/-- C4: for every stored quote, `buildQuoteWorkbook` produces the sheet named
"Cotización" with exactly the four headers Concepto, Cantidad, Precio,
Importe (no link column — a row carries only these four cells by type), one
row per line item whose Importe is cantidad times precio, then one empty
row, then a TOTAL row whose Importe is the stored total. -/
theorem c4_workbook_shape (q : QuoteOut) :
    (buildQuoteWorkbook q).sheetName = "Cotización" ∧
    (buildQuoteWorkbook q).header = ["Concepto", "Cantidad", "Precio", "Importe"] ∧
    (buildQuoteWorkbook q).rows =
      q.items.map (fun it =>
        { Concepto := Cell.s it.concepto, Cantidad := Cell.n it.cantidad
          Precio := Cell.n it.precio, Importe := Cell.n (it.cantidad * it.precio) }) ++
      [emptyWRow,
       { Concepto := Cell.s "TOTAL", Cantidad := Cell.s "", Precio := Cell.s ""
         Importe := Cell.n q.total }] := by
  refine ⟨rfl, rfl, ?_⟩
  simp [buildQuoteWorkbook]

/-- C10: no project-endpoint response contains the stored password hash.
The view functions of both variants are invariant under any rewriting of the
stored hash (the `ProjectView` type has no hash field), and the read
endpoints (list, fetch) of both variants produce identical responses on
states whose hashes are rewritten arbitrarily. -/
theorem c10_no_password_hash_in_views :
    (∀ (row : ProjectRow) (h : String),
      projectRowToView { row with password_hash := h } = projectRowToView row) ∧
    (∀ (folder : String) (s : SceneDoc) (h : String),
      sceneToView folder { s with passwordHash := h } = sceneToView folder s) ∧
    (∀ (st : SbState) (f : String → String) (id : String),
      sbGetProject (sbSetHashes st f) id = sbGetProject st id) ∧
    (∀ (st : SbState) (f : String → String),
      sbListProjects (sbSetHashes st f) = sbListProjects st) ∧
    (∀ (st : FsState) (f : String → String) (id : String),
      fsGetProject (fsSetHashes st f) id = fsGetProject st id) ∧
    (∀ (st : FsState) (f : String → String),
      fsListProjects (fsSetHashes st f) = fsListProjects st) := by
  refine ⟨fun row h => rfl, fun folder s h => rfl, ?_, ?_, ?_, ?_⟩
  · intro st f id
    unfold sbGetProject sbSetHashes
    rw [findRow_mapVal]
    cases findRow st.projects id <;> rfl
  · intro st f
    unfold sbListProjects sbSetHashes
    simp only [List.map_map]
    rfl
  · intro st f id
    unfold fsGetProject
    rw [readScene_setHashes]
    cases readScene st id <;> rfl
  · intro st f
    unfold fsListProjects fsSetHashes
    simp only [List.filterMap_map]
    have hfun : ((fun (p : String × Folder) => Option.map (sceneToView p.1) p.2.scene) ∘
        (fun (p : String × Folder) => (p.1, setFolderHash f p.2))) =
        (fun (p : String × Folder) => Option.map (sceneToView p.1) p.2.scene) := by
      funext p
      cases hs : p.2.scene
      · simp [setFolderHash, hs]
      · simp [setFolderHash, hs]
        rfl
    rw [hfun]

/-- C9 counterexample: on a name whose slug has 41 characters before
truncation, `substring(0, 40)` is applied after the hyphen trimming and cuts
directly after a hyphen, so the returned id ends in a hyphen — refuting the
claim that the result never has a trailing hyphen. -/
theorem c9_counterexample :
    (slugify slugInput).data.getLast? = some '-' ∧
    (slugify slugInput).data.length = 40 := by
  constructor
  · decide
  · decide

/-- C9 (amended): for every input string, slugify returns a non-empty string
of at most 40 characters consisting only of lowercase ASCII letters, digits,
and hyphens, with no leading hyphen, and returns "proyecto" when the folded
input contains no alphanumeric character; it is a pure function, hence
deterministic.  (A trailing hyphen can remain when the 40-character
truncation cuts a longer slug directly after a hyphen; this is the only part
of the claim that fails, witnessed by the counterexample.) -/
theorem c9_slugify_amended (s : String) :
    (slugify s).data ≠ [] ∧
    (slugify s).data.length ≤ 40 ∧
    ((slugify s).data.all (fun c => isLowerAlnum c || c == '-')) = true ∧
    (slugify s).data.head? ≠ some '-' ∧
    (((s.data.map foldChar).all (fun c => !isLowerAlnum c)) = true →
      slugify s = "proyecto") := by
  by_cases hs : s = ""
  · subst hs
    exact ⟨by decide, by decide, by decide, by decide, fun _ => by decide⟩
  · have hb : (s == "") = false := by simpa using hs
    have hslug : slugify s =
        (if ((rtrimDash (ltrimDash (dashRuns false (s.data.map foldChar)))).take 40).isEmpty
         then "proyecto"
         else String.mk
           ((rtrimDash (ltrimDash (dashRuns false (s.data.map foldChar)))).take 40)) := by
      simp [slugify, hb]
    by_cases hc :
        (((rtrimDash (ltrimDash (dashRuns false (s.data.map foldChar)))).take 40).isEmpty
          = true)
    · rw [hslug, if_pos hc]
      exact ⟨by decide, by decide, by decide, by decide, fun _ => rfl⟩
    · have hne : (rtrimDash (ltrimDash (dashRuns false (s.data.map foldChar)))).take 40 ≠ [] := by
        intro h
        exact hc (by simp [h])
      rw [hslug, if_neg hc]
      refine ⟨by simpa using hne, ?_, ?_, ?_, ?_⟩
      · show ((rtrimDash (ltrimDash (dashRuns false (s.data.map foldChar)))).take 40).length ≤ 40
        rw [List.length_take]
        exact min_le_left _ _
      · exact slugTrim_all (s.data.map foldChar)
      · exact slugTrim_head (s.data.map foldChar) hne
      · intro hall
        exact absurd (slugTrim_empty_of_no_alnum (s.data.map foldChar) hall)
          (by intro h; rw [h] at hne; exact hne rfl)

/-- Witness for the amended C9 theorem at a concrete input whose folded form
contains no alphanumeric character. -/
theorem c9_slugify_amended_witness :
    (("¡!".data.map foldChar).all (fun c => !isLowerAlnum c)) = true ∧
    slugify "¡!" = "proyecto" :=
  ⟨by decide, (c9_slugify_amended "¡!").2.2.2.2 (by decide)⟩

/-- C1 counterexample: PUT /api/projects/:id/transform with no password at
all returns 200 and overwrites the stored transform, and PUT
/api/projects/:id/model with no password field anywhere in the handler
returns 200 and replaces the stored model — so not every mutating project
operation is guarded by the password-hash comparison. -/
theorem c1_counterexample :
    ((sbPutTransform sampleSb "p"
        { password := none, position := some ⟨1, 2, 3⟩ }).1.status = 200 ∧
      (sbPutTransform sampleSb "p"
        { password := none, position := some ⟨1, 2, 3⟩ }).2 ≠ sampleSb) ∧
    ((sbPutModel sampleSb "p"
        { file := some ⟨"nuevo.obj", "OBJ"⟩ }).1.status = 200 ∧
      (sbPutModel sampleSb "p"
        { file := some ⟨"nuevo.obj", "OBJ"⟩ }).2 ≠ sampleSb) ∧
    ((fsPutTransform sampleFs "p"
        { password := none, position := some ⟨1, 2, 3⟩ }).1.status = 200 ∧
      (fsPutTransform sampleFs "p"
        { password := none, position := some ⟨1, 2, 3⟩ }).2 ≠ sampleFs) := by
  refine ⟨⟨?_, ?_⟩, ⟨?_, ?_⟩, ⟨?_, ?_⟩⟩ <;> decide

/-- C1 (amended): of the mutating project operations of the Supabase
variant, rename, notes, parts-meta, delete, and save-quote only change the
stored state when the SHA-256 hex of the supplied password equals the stored
hash; PUT transform performs the comparison only when the body supplies a
truthy password (otherwise it writes unauthenticated), and PUT model has no
password comparison at all (see the counterexample for the last two). -/
theorem c1_guarded_mutations (st : SbState) (id now : String)
    (rn : RenameReq) (nt : NotesReq) (pm : PartsMetaReq) (dl : DeleteReq)
    (qt : QuoteReq) (tr : TransformReq) :
    ((sbPutRename st id rn).2 ≠ st →
      ∃ proj pw, findRow st.projects id = some proj ∧ rn.password = some pw ∧
        hashPassword pw = proj.password_hash) ∧
    ((sbPutNotes st id nt).2 ≠ st →
      ∃ proj pw, findRow st.projects id = some proj ∧ nt.password = some pw ∧
        hashPassword pw = proj.password_hash) ∧
    ((sbPutPartsMeta st id pm).2 ≠ st →
      ∃ proj pw, findRow st.projects id = some proj ∧ pm.password = some pw ∧
        hashPassword pw = proj.password_hash) ∧
    ((sbDeleteProject st id dl).2 ≠ st →
      ∃ proj pw, findRow st.projects id = some proj ∧ dl.password = some pw ∧
        hashPassword pw = proj.password_hash) ∧
    ((sbPutQuote st id now qt).2 ≠ st →
      ∃ proj pw, findRow st.projects id = some proj ∧ qt.password = some pw ∧
        hashPassword pw = proj.password_hash) ∧
    ((sbPutTransform st id tr).2 ≠ st → strTruthy tr.password = true →
      ∃ proj pw, findRow st.projects id = some proj ∧ tr.password = some pw ∧
        hashPassword pw = proj.password_hash) := by
  refine ⟨?_, ?_, ?_, ?_, ?_, ?_⟩
  · intro hch
    cases hv : (!(strTruthy rn.name) || !(strTruthy rn.password)) with
    | true => simp [sbPutRename, hv] at hch
    | false =>
      cases hfind : findRow st.projects id with
      | none => simp [sbPutRename, hv, hfind] at hch
      | some proj =>
        cases hhash : (!(hashPassword (rn.password.getD "") == proj.password_hash)) with
        | true => simp [sbPutRename, hv, hfind, hhash] at hch
        | false =>
          simp at hv hhash
          cases hpw : rn.password with
          | none => rw [hpw] at hv; simp [strTruthy] at hv
          | some pw =>
            refine ⟨proj, pw, rfl, rfl, ?_⟩
            rw [hpw] at hhash
            simpa using hhash
  · intro hch
    cases hv : (nt.notes.isNone || !(strTruthy nt.password)) with
    | true => simp [sbPutNotes, hv] at hch
    | false =>
      cases hfind : findRow st.projects id with
      | none => simp [sbPutNotes, hv, hfind] at hch
      | some proj =>
        cases hhash : (!(hashPassword (nt.password.getD "") == proj.password_hash)) with
        | true => simp [sbPutNotes, hv, hfind, hhash] at hch
        | false =>
          simp at hv hhash
          cases hpw : nt.password with
          | none => rw [hpw] at hv; simp [strTruthy] at hv
          | some pw =>
            refine ⟨proj, pw, rfl, rfl, ?_⟩
            rw [hpw] at hhash
            simpa using hhash
  · intro hch
    cases hv : (pm.partId.isNone || !(strTruthy pm.password)) with
    | true => simp [sbPutPartsMeta, hv] at hch
    | false =>
      cases hfind : findRow st.projects id with
      | none => simp [sbPutPartsMeta, hv, hfind] at hch
      | some proj =>
        cases hhash : (!(hashPassword (pm.password.getD "") == proj.password_hash)) with
        | true => simp [sbPutPartsMeta, hv, hfind, hhash] at hch
        | false =>
          simp at hv hhash
          cases hpw : pm.password with
          | none => rw [hpw] at hv; simp [strTruthy] at hv
          | some pw =>
            refine ⟨proj, pw, rfl, rfl, ?_⟩
            rw [hpw] at hhash
            simpa using hhash
  · intro hch
    cases hv : (!(strTruthy dl.password)) with
    | true => simp [sbDeleteProject, hv] at hch
    | false =>
      cases hfind : findRow st.projects id with
      | none => simp [sbDeleteProject, hv, hfind] at hch
      | some proj =>
        cases hhash : (!(hashPassword (dl.password.getD "") == proj.password_hash)) with
        | true => simp [sbDeleteProject, hv, hfind, hhash] at hch
        | false =>
          simp at hv hhash
          cases hpw : dl.password with
          | none => rw [hpw] at hv; simp [strTruthy] at hv
          | some pw =>
            refine ⟨proj, pw, rfl, rfl, ?_⟩
            rw [hpw] at hhash
            simpa using hhash
  · intro hch
    cases hv : (!(strTruthy qt.password) || qt.items.isNone) with
    | true => simp [sbPutQuote, hv] at hch
    | false =>
      cases hfind : findRow st.projects id with
      | none => simp [sbPutQuote, hv, hfind] at hch
      | some proj =>
        cases hhash : (!(hashPassword (qt.password.getD "") == proj.password_hash)) with
        | true => simp [sbPutQuote, hv, hfind, hhash] at hch
        | false =>
          simp at hv hhash
          cases hpw : qt.password with
          | none => rw [hpw] at hv; simp [strTruthy] at hv
          | some pw =>
            refine ⟨proj, pw, rfl, rfl, ?_⟩
            rw [hpw] at hhash
            simpa using hhash
  · intro hch htr
    cases hfind : findRow st.projects id with
    | none => simp [sbPutTransform, hfind] at hch
    | some proj =>
      cases hhash : (strTruthy tr.password &&
          !(hashPassword (tr.password.getD "") == proj.password_hash)) with
      | true => simp [sbPutTransform, hfind, hhash] at hch
      | false =>
        cases hpw : tr.password with
        | none => rw [hpw] at htr; simp [strTruthy] at htr
        | some pw =>
          refine ⟨proj, pw, rfl, rfl, ?_⟩
          rw [hpw] at hhash htr
          simp [htr] at hhash
          simpa using hhash

/-- Witness for the amended C1 theorem: a correctly authenticated instance
of each guarded mutation on the sample state, each changing the state, from
which the theorem yields the matching-hash facts. -/
theorem c1_guarded_mutations_witness :
    ((sbPutRename sampleSb "p" { name := some "Nuevo", password := some "right" }).2
        ≠ sampleSb ∧
      ∃ proj pw, findRow sampleSb.projects "p" = some proj ∧
        (some "right" : Option String) = some pw ∧ hashPassword pw = proj.password_hash) ∧
    ((sbPutNotes sampleSb "p" { notes := some "n", password := some "right" }).2
        ≠ sampleSb ∧
      ∃ proj pw, findRow sampleSb.projects "p" = some proj ∧
        (some "right" : Option String) = some pw ∧ hashPassword pw = proj.password_hash) ∧
    ((sbPutTransform sampleSb "p"
        { password := some "right", position := some ⟨7, 0, 0⟩ }).2 ≠ sampleSb ∧
      strTruthy (some "right") = true ∧
      ∃ proj pw, findRow sampleSb.projects "p" = some proj ∧
        (some "right" : Option String) = some pw ∧ hashPassword pw = proj.password_hash) :=
  ⟨⟨by decide,
    (c1_guarded_mutations sampleSb "p" "now"
      { name := some "Nuevo", password := some "right" } {} {} {} {}
      {}).1 (by decide)⟩,
   ⟨by decide,
    (c1_guarded_mutations sampleSb "p" "now" {}
      { notes := some "n", password := some "right" } {} {} {}
      {}).2.1 (by decide)⟩,
   ⟨by decide, by decide,
    (c1_guarded_mutations sampleSb "p" "now" {} {} {} {} {}
      { password := some "right", position := some ⟨7, 0, 0⟩ }).2.2.2.2.2
      (by decide) (by decide)⟩⟩

/-- C2: for every stored project and every rename / notes / parts-meta /
delete / save-quote request that carries its required fields and a password
whose SHA-256 hex differs from the stored hash, the handler returns 403 with
ok:false ("Contraseña incorrecta.") and the entire stored state — project
records, model storage, and quotes, respectively the whole public folder
tree — is exactly the state before the request.  Shown for all five Supabase
operations and the filesystem delete the claim cites. -/
theorem c2_wrong_password_atomic (st : SbState) (stf : FsState) (id now : String)
    (proj : ProjectRow) (scene : SceneDoc) (pw name notes : String)
    (partId : JSVal) (items : List RawItem) (total : JSVal)
    (hproj : findRow st.projects id = some proj)
    (hscene : readScene stf id = some scene)
    (hpw : pw ≠ "") (hname : name ≠ "")
    (hbad : hashPassword pw ≠ proj.password_hash)
    (hbadf : hashPassword pw ≠ scene.passwordHash) :
    sbPutRename st id { name := some name, password := some pw } =
      (errResp _ 403 "Contraseña incorrecta.", st) ∧
    sbPutNotes st id { notes := some notes, password := some pw } =
      (errResp _ 403 "Contraseña incorrecta.", st) ∧
    sbPutPartsMeta st id { partId := some partId, password := some pw } =
      (errResp _ 403 "Contraseña incorrecta.", st) ∧
    sbDeleteProject st id { password := some pw } =
      (errResp _ 403 "Contraseña incorrecta.", st) ∧
    sbPutQuote st id now { password := some pw, items := some items, total := total } =
      (errResp _ 403 "Contraseña incorrecta.", st) ∧
    fsDeleteProject stf id { password := some pw } =
      (errResp _ 403 "Contraseña incorrecta.", stf) := by
  refine ⟨?_, ?_, ?_, ?_, ?_, ?_⟩
  · simp [sbPutRename, hproj, strTruthy, hpw, hname, hbad]
  · simp [sbPutNotes, hproj, strTruthy, hpw, hbad]
  · simp [sbPutPartsMeta, hproj, strTruthy, hpw, hbad]
  · simp [sbDeleteProject, hproj, strTruthy, hpw, hbad]
  · simp [sbPutQuote, hproj, strTruthy, hpw, hbad]
  · simp [fsDeleteProject, hscene, strTruthy, hpw, hbadf]

/-- Witness for the C2 theorem: the fixture project with the wrong password
"wrong"; both delete handlers answer 403 and leave the state untouched. -/
theorem c2_wrong_password_atomic_witness :
    hashPassword "wrong" ≠ sampleRow.password_hash ∧
    hashPassword "wrong" ≠ sampleScene.passwordHash ∧
    sbDeleteProject sampleSb "p" { password := some "wrong" } =
      (errResp Unit 403 "Contraseña incorrecta.", sampleSb) ∧
    fsDeleteProject sampleFs "p" { password := some "wrong" } =
      (errResp Unit 403 "Contraseña incorrecta.", sampleFs) :=
  have h := c2_wrong_password_atomic sampleSb sampleFs "p" "now" sampleRow sampleScene
    "wrong" "Nuevo" "nota" (JSVal.vNum 1) [] JSVal.vUndef
    (by decide) (by decide) (by decide) (by decide) (by decide) (by decide)
  ⟨by decide, by decide, h.2.2.2.1, h.2.2.2.2.2⟩

/-- C3: for every authenticated PUT /api/quotes/:id with an items array, the
stored quote row normalizes each item to a string concepto, numeric cantidad
and precio with non-numeric values (`Number(x)` giving `NaN`) coerced to 0,
and a string link; the stored total is the body total when the body carries
a (finite — every JSON number is) number, and otherwise the fold of cantidad
times precio over the normalized items (the non-finite-sum fallback to 0 is
vacuous for rationals, matching `isFinite` on JSON-representable sums). -/
theorem c3_quote_normalization (st : SbState) (id now : String) (proj : ProjectRow)
    (pw : String) (items : List RawItem) (total : JSVal)
    (hproj : findRow st.projects id = some proj) (hpw : pw ≠ "")
    (hauth : hashPassword pw = proj.password_hash) :
    findRow ((sbPutQuote st id now
        { password := some pw, items := some items, total := total }).2).quotes id =
      some
        { project_id := id
          items := items.map (fun it =>
            { concepto := jsOrEmptyToString it.concepto
              cantidad := (jsToNumber it.cantidad).getD 0
              precio := (jsToNumber it.precio).getD 0
              link := jsOrEmptyToString it.link })
          total := match total with
            | .vNum q => q
            | _ => (items.map normalizeItem).foldl
                (fun acc it => acc + it.cantidad * it.precio) 0
          updated_at := now } := by
  simp [sbPutQuote, hproj, strTruthy, hpw, hauth, jsIsFinite,
    findRow_upsert_self, normalizeItem, numberOr0]

/-- Witness for C3: a quote item with a non-numeric cantidad (coerced to 0),
stored together with the body-supplied numeric total. -/
theorem c3_quote_normalization_witness :
    hashPassword "right" = sampleRow.password_hash ∧
    findRow ((sbPutQuote sampleSb "p" "2026-02-02"
        { password := some "right"
          items := some
            [{ concepto := JSVal.vStr "Tornillos", cantidad := JSVal.vStr "abc"
               precio := JSVal.vNum 5, link := JSVal.vStr "http" }]
          total := JSVal.vNum 9 }).2).quotes "p" =
      some
        { project_id := "p"
          items := [{ concepto := "Tornillos", cantidad := 0, precio := 5
                      link := "http" }]
          total := 9
          updated_at := "2026-02-02" } := by
  have h := c3_quote_normalization sampleSb "p" "2026-02-02" sampleRow "right"
    [{ concepto := JSVal.vStr "Tornillos", cantidad := JSVal.vStr "abc"
       precio := JSVal.vNum 5, link := JSVal.vStr "http" }]
    (JSVal.vNum 9) (by decide) (by decide) (by decide)
  exact ⟨by decide, by rw [h]; decide⟩

/-- C5 counterexample: the same DELETE request (no password) on
corresponding empty states receives status 400 from the Supabase variant,
which validates the password field before the record lookup, but 404 from
the filesystem variant, which looks the scene up first — so the variants are
not behaviorally equivalent at the HTTP interface. -/
theorem c5_counterexample :
    (sbDeleteProject emptySb "x" {}).1.status = 400 ∧
    (fsDeleteProject emptyFs "x" {}).1.status = 404 := by
  constructor
  · decide
  · decide

/-- C5 (amended): the variants agree on the DELETE status code whenever the
target project exists with the same stored password hash; the equivalence as
claimed fails only where validation order or response-body shape differ
(counterexample: missing-password DELETE of an absent project). -/
theorem c5_delete_status_agreement (st : SbState) (stf : FsState) (id : String)
    (proj : ProjectRow) (scene : SceneDoc) (r : DeleteReq)
    (hsb : findRow st.projects id = some proj)
    (hfs : readScene stf id = some scene)
    (hh : proj.password_hash = scene.passwordHash) :
    (sbDeleteProject st id r).1.status = (fsDeleteProject stf id r).1.status := by
  have hb2 : (hashPassword (r.password.getD "") == scene.passwordHash) =
      (hashPassword (r.password.getD "") == proj.password_hash) := by rw [hh]
  unfold sbDeleteProject fsDeleteProject
  rw [hsb, hfs]
  cases hp : strTruthy r.password
  · simp [hp]
  · cases hb : (hashPassword (r.password.getD "") == proj.password_hash) <;>
      simp [hp, hb, hb2.trans hb]

/-- Witness for the amended C5 theorem on the sample states. -/
theorem c5_delete_status_agreement_witness :
    findRow sampleSb.projects "p" = some sampleRow ∧
    readScene sampleFs "p" = some sampleScene ∧
    sampleRow.password_hash = sampleScene.passwordHash ∧
    (sbDeleteProject sampleSb "p" { password := some "wrong" }).1.status =
      (fsDeleteProject sampleFs "p" { password := some "wrong" }).1.status :=
  ⟨by decide, by decide, by decide,
   c5_delete_status_agreement sampleSb sampleFs "p" sampleRow sampleScene
     { password := some "wrong" } (by decide) (by decide) (by decide)⟩

/-- C6 counterexample: a POST /api/projects request with projectName,
password, and model all present, whose projectName slugifies to the id of an
already stored project, makes the Supabase variant's insert fail on the
duplicate id, and the handler answers 500 — not 201 as the unconditional
claim states. -/
theorem c6_counterexample :
    (strTruthy (some "P") = true ∧ strTruthy (some "pw") = true ∧
      (some (⟨"m.glb", "GLB"⟩ : UploadFile)).isSome = true) ∧
    findRow sampleSb.projects (slugify "P") = some sampleRow ∧
    (sbCreateProject sampleSb "2026-01-01"
      { projectName := some "P", password := some "pw"
        file := some ⟨"m.glb", "GLB"⟩ }).1.status = 500 ∧
    (sbCreateProject sampleSb "2026-01-01"
      { projectName := some "P", password := some "pw"
        file := some ⟨"m.glb", "GLB"⟩ }).1.ok = false := by
  refine ⟨⟨?_, ?_, ?_⟩, ?_, ?_, ?_⟩ <;> decide

/-- C6 (amended): POST /api/projects answers 400 with ok:false and leaves
the state untouched (no record created, no model stored) when projectName,
password, or the uploaded model is missing, in both variants.  When all
three are present, the filesystem variant answers 201 with ok:true and the
slug of projectName as the project id unconditionally, and the Supabase
variant does so when no stored project already has that slug; when the slug
is already taken, the duplicate-id insert fails and the handler answers 500
with ok:false, leaving the projects table unchanged (the upload has already
overwritten the storage object at that path by then). -/
theorem c6_create_validation (st : SbState) (stf : FsState) (today : String)
    (r : CreateReq) :
    (¬(strTruthy r.projectName = true ∧ strTruthy r.password = true ∧
        r.file.isSome = true) →
      sbCreateProject st today r =
        (errResp _ 400 "projectName, password y model son obligatorios.", st) ∧
      fsCreateProject stf today r =
        (errResp _ 400 "projectName, password y model son obligatorios.", stf)) ∧
    (strTruthy r.projectName = true → strTruthy r.password = true →
      r.file.isSome = true →
      findRow st.projects (slugify (r.projectName.getD "")) = none →
      (sbCreateProject st today r).1.status = 201 ∧
      (sbCreateProject st today r).1.ok = true ∧
      ((sbCreateProject st today r).1.payload.map (fun p => p.projectId)) =
        some (slugify (r.projectName.getD "")) ∧
      (fsCreateProject stf today r).1.status = 201 ∧
      (fsCreateProject stf today r).1.ok = true ∧
      ((fsCreateProject stf today r).1.payload.map (fun p => p.projectId)) =
        some (slugify (r.projectName.getD ""))) ∧
    (strTruthy r.projectName = true → strTruthy r.password = true →
      r.file.isSome = true →
      (findRow st.projects (slugify (r.projectName.getD ""))).isSome = true →
      (sbCreateProject st today r).1.status = 500 ∧
      (sbCreateProject st today r).1.ok = false ∧
      ((sbCreateProject st today r).2).projects = st.projects) := by
  refine ⟨?_, ?_, ?_⟩
  · intro hmiss
    cases hf : r.file with
    | none =>
      exact ⟨by simp [sbCreateProject, hf], by simp [fsCreateProject, hf]⟩
    | some file =>
      have hv : (!(strTruthy r.projectName) || !(strTruthy r.password)) = true := by
        cases hA : strTruthy r.projectName with
        | false => simp
        | true =>
          cases hB : strTruthy r.password with
          | false => simp
          | true => exact absurd ⟨hA, hB, by simp [hf]⟩ hmiss
      exact ⟨by simp [sbCreateProject, hf, hv], by simp [fsCreateProject, hf, hv]⟩
  · intro hA hB hC hfresh
    cases hf : r.file with
    | none => rw [hf] at hC; simp at hC
    | some file =>
      refine ⟨?_, ?_, ?_, ?_, ?_, ?_⟩ <;>
        simp [sbCreateProject, fsCreateProject, hf, hA, hB, hfresh]
  · intro hA hB hC hdup
    cases hf : r.file with
    | none => rw [hf] at hC; simp at hC
    | some file =>
      cases hfind : findRow st.projects (slugify (r.projectName.getD "")) with
      | none => rw [hfind] at hdup; simp at hdup
      | some proj =>
        refine ⟨?_, ?_, ?_⟩ <;> simp [sbCreateProject, hf, hA, hB, hfind, errResp]

/-- Witness for C6: a request missing the password is rejected by both
variants without touching the state; a complete request on the empty states
is accepted with the slugified name as id; and a complete request whose
slug is already taken gets 500 from the Supabase variant with the projects
table untouched. -/
theorem c6_create_validation_witness :
    (sbCreateProject emptySb "2026-01-01" { projectName := some "Mi Casa 3D" } =
        (errResp _ 400 "projectName, password y model son obligatorios.", emptySb) ∧
      fsCreateProject emptyFs "2026-01-01" { projectName := some "Mi Casa 3D" } =
        (errResp _ 400 "projectName, password y model son obligatorios.", emptyFs)) ∧
    ((sbCreateProject emptySb "2026-01-01"
        { projectName := some "Mi Casa 3D", password := some "pw"
          file := some ⟨"casa.glb", "GLB"⟩ }).1.status = 201 ∧
      (sbCreateProject emptySb "2026-01-01"
        { projectName := some "Mi Casa 3D", password := some "pw"
          file := some ⟨"casa.glb", "GLB"⟩ }).1.ok = true ∧
      ((sbCreateProject emptySb "2026-01-01"
        { projectName := some "Mi Casa 3D", password := some "pw"
          file := some ⟨"casa.glb", "GLB"⟩ }).1.payload.map (fun p => p.projectId)) =
        some (slugify "Mi Casa 3D") ∧
      (fsCreateProject emptyFs "2026-01-01"
        { projectName := some "Mi Casa 3D", password := some "pw"
          file := some ⟨"casa.glb", "GLB"⟩ }).1.status = 201 ∧
      (fsCreateProject emptyFs "2026-01-01"
        { projectName := some "Mi Casa 3D", password := some "pw"
          file := some ⟨"casa.glb", "GLB"⟩ }).1.ok = true ∧
      ((fsCreateProject emptyFs "2026-01-01"
        { projectName := some "Mi Casa 3D", password := some "pw"
          file := some ⟨"casa.glb", "GLB"⟩ }).1.payload.map (fun p => p.projectId)) =
        some (slugify "Mi Casa 3D")) ∧
    ((sbCreateProject sampleSb "2026-01-01"
        { projectName := some "P", password := some "pw"
          file := some ⟨"casa.glb", "GLB"⟩ }).1.status = 500 ∧
      (sbCreateProject sampleSb "2026-01-01"
        { projectName := some "P", password := some "pw"
          file := some ⟨"casa.glb", "GLB"⟩ }).1.ok = false ∧
      ((sbCreateProject sampleSb "2026-01-01"
        { projectName := some "P", password := some "pw"
          file := some ⟨"casa.glb", "GLB"⟩ }).2).projects = sampleSb.projects) :=
  ⟨(c6_create_validation emptySb emptyFs "2026-01-01"
      { projectName := some "Mi Casa 3D" }).1 (by decide),
   (c6_create_validation emptySb emptyFs "2026-01-01"
      { projectName := some "Mi Casa 3D", password := some "pw"
        file := some ⟨"casa.glb", "GLB"⟩ }).2.1
      (by decide) (by decide) (by decide) (by decide),
   (c6_create_validation sampleSb emptyFs "2026-01-01"
      { projectName := some "P", password := some "pw"
        file := some ⟨"casa.glb", "GLB"⟩ }).2.2
      (by decide) (by decide) (by decide) (by decide)⟩

/-- C7: quotes are keyed by project id with upsert-on-conflict semantics:
after any authenticated save on a state holding at most one quote for the
project, exactly one quote row for that project id is stored, it is the one
just saved (its items and timestamp come from this request), GET returns it
with status 200, and GET answers 404 exactly on states storing no quote for
the id. -/
theorem c7_one_quote_per_project (st : SbState) (id now : String) (proj : ProjectRow)
    (pw : String) (items : List RawItem) (total : JSVal)
    (hproj : findRow st.projects id = some proj) (hpw : pw ≠ "")
    (hauth : hashPassword pw = proj.password_hash)
    (hinv : countKey st.quotes id ≤ 1) :
    countKey ((sbPutQuote st id now
        { password := some pw, items := some items, total := total }).2).quotes id = 1 ∧
    (sbGetQuote ((sbPutQuote st id now
        { password := some pw, items := some items, total := total }).2) id).status = 200 ∧
    ((findRow ((sbPutQuote st id now
        { password := some pw, items := some items, total := total }).2).quotes id).map
      (fun q => (q.items, q.updated_at))) = some (items.map normalizeItem, now) ∧
    (∀ st0 : SbState, (sbGetQuote st0 id).status = 404 ↔ findRow st0.quotes id = none) := by
  have hq : ((sbPutQuote st id now
      { password := some pw, items := some items, total := total }).2).quotes =
      upsertList st.quotes id
        { project_id := id
          items := items.map normalizeItem
          total := match total with
            | .vNum q => q
            | _ => (items.map normalizeItem).foldl
                (fun acc it => acc + it.cantidad * it.precio) 0
          updated_at := now } := by
    simp [sbPutQuote, hproj, strTruthy, hpw, hauth, jsIsFinite, normalizeItem]
  refine ⟨?_, ?_, ?_, ?_⟩
  · rw [hq]
    exact countKey_upsert _ _ _ hinv
  · unfold sbGetQuote
    rw [hq, findRow_upsert_self]
  · rw [hq, findRow_upsert_self]
    rfl
  · intro st0
    unfold sbGetQuote
    cases h : findRow st0.quotes id <;> simp [h, errResp]

/-- Witness for C7 on the sample state (empty quotes table). -/
theorem c7_one_quote_per_project_witness :
    countKey sampleSb.quotes "p" ≤ 1 ∧
    countKey ((sbPutQuote sampleSb "p" "2026-02-02"
        { password := some "right", items := some [], total := JSVal.vNum 4 }).2).quotes
      "p" = 1 ∧
    (sbGetQuote ((sbPutQuote sampleSb "p" "2026-02-02"
        { password := some "right", items := some [], total := JSVal.vNum 4 }).2)
      "p").status = 200 :=
  have h := c7_one_quote_per_project sampleSb "p" "2026-02-02" sampleRow "right"
    [] (JSVal.vNum 4) (by decide) (by decide) (by decide) (by decide)
  ⟨by decide, h.1, h.2.1⟩

/-- C8: a successful transform update (status 200) in either variant changes
exactly the position and rotation of the record — all other fields (name,
author, date, password hash, model file, pending notes, parts metadata), the
quotes table, and the storage bucket are untouched — and an omitted position
or rotation keeps the stored one. -/
theorem c8_transform_frame (st : SbState) (stf : FsState) (id : String)
    (r : TransformReq) :
    ((sbPutTransform st id r).1.status = 200 →
      ∃ proj, findRow st.projects id = some proj ∧
        findRow ((sbPutTransform st id r).2).projects id =
          some { proj with position := r.position.getD proj.position
                           rotation := r.rotation.getD proj.rotation } ∧
        ((sbPutTransform st id r).2).quotes = st.quotes ∧
        ((sbPutTransform st id r).2).storage = st.storage) ∧
    ((fsPutTransform stf id r).1.status = 200 →
      ∃ s, readScene stf id = some s ∧
        readScene ((fsPutTransform stf id r).2) id =
          some { s with position := r.position.getD s.position
                        rotation := r.rotation.getD s.rotation }) := by
  constructor
  · intro h200
    cases hfind : findRow st.projects id with
    | none => simp [sbPutTransform, hfind, errResp] at h200
    | some proj =>
      cases hcond : (strTruthy r.password &&
          !(hashPassword (r.password.getD "") == proj.password_hash)) with
      | true => simp [sbPutTransform, hfind, hcond, errResp] at h200
      | false =>
        refine ⟨proj, rfl, ?_, ?_, ?_⟩
        · simp only [sbPutTransform, hfind, hcond]
          exact findRow_update_self st.projects id proj _ hfind
        · simp [sbPutTransform, hfind, hcond]
        · simp [sbPutTransform, hfind, hcond]
  · intro h200
    cases hfind : readScene stf id with
    | none => simp [fsPutTransform, hfind, errResp] at h200
    | some s =>
      cases hcond : (strTruthy r.password &&
          !(hashPassword (r.password.getD "") == s.passwordHash)) with
      | true => simp [fsPutTransform, hfind, hcond, errResp] at h200
      | false =>
        refine ⟨s, rfl, ?_⟩
        simp only [fsPutTransform, hfind, hcond]
        exact readScene_putScene stf id _

/-- Witness for C8: an authenticated transform that supplies a position but
omits the rotation on both sample states. -/
theorem c8_transform_frame_witness :
    (sbPutTransform sampleSb "p"
      { password := some "right", position := some ⟨1, 2, 3⟩ }).1.status = 200 ∧
    (∃ proj, findRow sampleSb.projects "p" = some proj ∧
      findRow ((sbPutTransform sampleSb "p"
          { password := some "right", position := some ⟨1, 2, 3⟩ }).2).projects "p" =
        some { proj with
          position := (some (⟨1, 2, 3⟩ : Vec3)).getD proj.position
          rotation := (none : Option Vec3).getD proj.rotation } ∧
      ((sbPutTransform sampleSb "p"
          { password := some "right", position := some ⟨1, 2, 3⟩ }).2).quotes =
        sampleSb.quotes ∧
      ((sbPutTransform sampleSb "p"
          { password := some "right", position := some ⟨1, 2, 3⟩ }).2).storage =
        sampleSb.storage) ∧
    (∃ s, readScene sampleFs "p" = some s ∧
      readScene ((fsPutTransform sampleFs "p"
          { password := some "right", position := some ⟨1, 2, 3⟩ }).2) "p" =
        some { s with
          position := (some (⟨1, 2, 3⟩ : Vec3)).getD s.position
          rotation := (none : Option Vec3).getD s.rotation }) :=
  have h := c8_transform_frame sampleSb sampleFs "p"
    { password := some "right", position := some ⟨1, 2, 3⟩ }
  ⟨by decide, h.1 (by decide), h.2 (by decide)⟩

end Visor3dMci
